import Mathlib

/-!
Verification of the pantheon command interpreter and backend abstraction
layer against its specification.  The Rust sources under src are embedded
shallowly: pure control flow becomes Lean functions, fallible operations
become Except values, and the outcomes of external backend calls (the
thirtyfour client, the url crate parser, the browser) are passed in as
explicit parameters, since those libraries are outside the repository.
Components of the repository whose files are not available (runner.rs,
error.rs, the webdriver trait module, the js fragment files) are modelled
from the specification and marked as such in their doc comments.
-/

namespace Pantheon

/-- JSON values marshalled between the variable store and the browser
script context (serde_json Value, an external crate). -/
inductive Json where
  | null
  | bool (b : Bool)
  | num (n : Int)
  | str (s : String)
  | arr (xs : List Json)
  | obj (fields : List (String × Json))

/-- Modelled from the spec: the error taxonomy of section 7.  The file
error.rs is not under src; the variants used by the command sources are
a backend error, AssertFailed carrying lhs and rhs, Timeout carrying a
command name, and NoSuchValue. -/
inductive RunnerErrorKind where
  | backendError (msg : String)
  | assertFailed (lhs rhs : String)
  | timeout (name : String)
  | noSuchValue (name : String)

/-- Locator, from the Into By conversion in thirtyfour.rs: a tagged union
over link text, css selector, element id and xpath, each a string. -/
inductive Locator where
  | linkText (s : String)
  | css (s : String)
  | id (s : String)
  | xpath (s : String)

/-- Lookup of a variable name in the store (name to JSON value mapping). -/
def lookupVar (name : String) : List (String × Json) → Option Json
  | [] => none
  | (k, v) :: rest => if k = name then some v else lookupVar name rest

/-- Insert-or-overwrite of a binding in the store: later writes overwrite,
keys stay unique. -/
def storeInsert (name : String) (v : Json) : List (String × Json) → List (String × Json)
  | [] => [(name, v)]
  | (k, w) :: rest =>
      if k = name then (name, v) :: rest else (k, w) :: storeInsert name v rest

/-- Modelled from the spec: the Runner owns the variable store (data) and
drives the backend session; runner.rs is not under src.  The list of
scripts handed to the backend for execution is recorded in execTrace so
that how often and with what text the Runner executes scripts is
observable in the model. -/
structure Runner where
  data : List (String × Json)
  execTrace : List String

/-- Modelled from the spec: save a value in the variable store, later
writes overwrite earlier ones. -/
def Runner.save_value (r : Runner) (name : String) (v : Json) : Runner :=
  { r with data := storeInsert name v r.data }

/-- Modelled from the spec: get of the variable store; an unbound name
yields none, distinguishable from a bound null value. -/
def Runner.get (r : Runner) (name : String) : Option Json :=
  lookupVar name r.data

/-- Modelled from the spec: Runner exec routes a script through the
backend execute operation and returns the raw JSON result; the backend
response is supplied by backendExec.  The executed script is recorded. -/
def Runner.exec (r : Runner) (backendExec : String → Except RunnerErrorKind Json)
    (script : String) : Except RunnerErrorKind Json × Runner :=
  (backendExec script, { r with execTrace := r.execTrace ++ [script] })

/-- Modelled from the spec: Runner exec_async, identical routing for the
asynchronous execute variant. -/
def Runner.exec_async (r : Runner) (backendExec : String → Except RunnerErrorKind Json)
    (script : String) : Except RunnerErrorKind Json × Runner :=
  (backendExec script, { r with execTrace := r.execTrace ++ [script] })

/-!  Command set, embedded from src/src/command.  -/

/-- AssertAlert command, from assert_alert.rs. -/
structure AssertAlert where
  text : String

/-- Embeds AssertAlert run from assert_alert.rs: reads the alert text from
the webdriver (outcome supplied as alertResult, including possible backend
failure), succeeds when it equals the expected text, otherwise fails with
AssertFailed carrying lhs the observed text and rhs the expected text.
Lean string equality agrees with the byte equality Rust uses on valid
UTF-8 strings.  The runner is returned alongside the result; the source
run only reads the webdriver handle. -/
def AssertAlert.run (cmd : AssertAlert) (alertResult : Except RunnerErrorKind String)
    (r : Runner) : Except RunnerErrorKind Unit × Runner :=
  match alertResult with
  | .error e => (.error e, r)
  | .ok alert =>
      if alert = cmd.text then (.ok (), r)
      else (.error (.assertFailed alert cmd.text), r)

/-- ExecuteAsync command, from execute_async.rs; the source field named
variable is called varName here because variable is a Lean keyword. -/
structure ExecuteAsync where
  varName : Option String
  script : String

/-- Embeds ExecuteAsync run from execute_async.rs: exec_async the script,
propagate an error with the question mark operator, and when the variable
field is set save the returned JSON value under that name. -/
def ExecuteAsync.run (cmd : ExecuteAsync)
    (backendExec : String → Except RunnerErrorKind Json)
    (r : Runner) : Except RunnerErrorKind Unit × Runner :=
  match r.exec_async backendExec cmd.script with
  | (.error e, r2) => (.error e, r2)
  | (.ok res, r2) =>
      match cmd.varName with
      | some var => (.ok (), r2.save_value var res)
      | none => (.ok (), r2)

/-- WaitForElementVisible command, from wait_for_element_visible.rs. -/
structure WaitForElementVisible where
  target : Locator
  timeout : Nat

/-- Embeds WaitForElementVisible run from wait_for_element_visible.rs.
The source body is exactly a sleep for the timeout followed by Ok: it
ignores the runner and the locator and never consults the backend.  The
slept duration is returned as the second component to model elapsed
time. -/
def WaitForElementVisible.run (cmd : WaitForElementVisible) (r : Runner) :
    (Except RunnerErrorKind Unit × Runner) × Nat :=
  ((.ok (), r), cmd.timeout)

/-- WaitForElementPresent command, from wait_for_element_present.rs. -/
structure WaitForElementPresent where
  target : Locator
  timeout : Nat

/-- Embeds WaitForElementPresent run: delegates to the wait_for_present
primitive (outcome supplied as backendWait) and maps any error to
Timeout with the string WaitForElementPresent. -/
def WaitForElementPresent.run (_cmd : WaitForElementPresent)
    (backendWait : Except RunnerErrorKind Unit) : Except RunnerErrorKind Unit :=
  match backendWait with
  | .error _ => .error (.timeout "WaitForElementPresent")
  | .ok _ => .ok ()

/-- WaitForElementEditable command, from wait_for_element_editable.rs. -/
structure WaitForElementEditable where
  target : Locator
  timeout : Nat

/-- Embeds WaitForElementEditable run: delegates to the wait_for_editable
primitive (outcome supplied as backendWait) and maps any error to Timeout
with the hard-coded string WaitForElementPresent, exactly as the source
line 32 of wait_for_element_editable.rs writes it. -/
def WaitForElementEditable.run (_cmd : WaitForElementEditable)
    (backendWait : Except RunnerErrorKind Unit) : Except RunnerErrorKind Unit :=
  match backendWait with
  | .error _ => .error (.timeout "WaitForElementPresent")
  | .ok _ => .ok ()

/-- WaitForElementNotEditable command, from wait_for_element_editable.rs. -/
structure WaitForElementNotEditable where
  target : Locator
  timeout : Nat

/-- Embeds WaitForElementNotEditable run: delegates to the
wait_for_not_editable primitive and maps any error to Timeout with the
hard-coded string WaitForElementPresent, as in the source line 57. -/
def WaitForElementNotEditable.run (_cmd : WaitForElementNotEditable)
    (backendWait : Except RunnerErrorKind Unit) : Except RunnerErrorKind Unit :=
  match backendWait with
  | .error _ => .error (.timeout "WaitForElementPresent")
  | .ok _ => .ok ()

/-!  Thirtyfour backend adapter, embedded from src/src/webdriver/thirtyfour.rs.  -/

/-- The driver handle a Client wraps (a borrow of the thirtyfour
WebDriver); modelled as an opaque identifier. -/
structure TfDriver where
  handle : Nat

/-- The element handle of the thirtyfour adapter: the underlying element
together with the borrow of the owning driver (the second field of the
source WebElement pair struct). -/
structure TfWebElement where
  driver : TfDriver

/-- Embeds WebElement click from thirtyfour.rs: performs the underlying
click (its outcome supplied as clickResult since the action runs in the
external thirtyfour library), propagating a failure with the question
mark operator, and on success returns the owning driver wrapped as a
Client. -/
def TfWebElement.click (e : TfWebElement)
    (clickResult : Except RunnerErrorKind Unit) : Except RunnerErrorKind TfDriver :=
  match clickResult with
  | .error err => .error err
  | .ok _ => .ok e.driver

/-- Embeds WebElement select_by_index from thirtyfour.rs: builds the
SelectElement (outcome mkSelect) then performs the selection at the index
(outcome selectAct); each stage propagates failure with the question mark
operator; on success the owning driver is returned.  The index itself is
consumed by the external selection action. -/
def TfWebElement.select_by_index (e : TfWebElement) (_index : Nat)
    (mkSelect : Except RunnerErrorKind Unit)
    (selectAct : Except RunnerErrorKind Unit) : Except RunnerErrorKind TfDriver :=
  match mkSelect with
  | .error err => .error err
  | .ok _ =>
      match selectAct with
      | .error err => .error err
      | .ok _ => .ok e.driver

/-- Embeds WebElement select_by_value from thirtyfour.rs, with the same
two fallible stages as select_by_index. -/
def TfWebElement.select_by_value (e : TfWebElement) (_value : String)
    (mkSelect : Except RunnerErrorKind Unit)
    (selectAct : Except RunnerErrorKind Unit) : Except RunnerErrorKind TfDriver :=
  match mkSelect with
  | .error err => .error err
  | .ok _ =>
      match selectAct with
      | .error err => .error err
      | .ok _ => .ok e.driver

/-- A validated URL as produced by the external url crate parser. -/
structure Url where
  raw : String

/-- Result of a call that, besides succeeding or erroring, may panic
(a Rust unwrap on a failed parse aborts instead of returning). -/
inductive PanicOr (α : Type) where
  | ok (a : α)
  | panicked

/-- Embeds Client current_url from thirtyfour.rs: the backend string is
fetched (outcome backendUrl), a backend failure propagates with the
question mark operator as an error result, and the string is then parsed
with Url parse followed by unwrap — so an unparsable string is a panic,
not an error result.  The url crate parser is external and supplied as
parseUrl. -/
def Client.current_url (parseUrl : String → Option Url)
    (backendUrl : Except RunnerErrorKind String) :
    PanicOr (Except RunnerErrorKind Url) :=
  match backendUrl with
  | .error e => .ok (.error e)
  | .ok s =>
      match parseUrl s with
      | some u => .ok (.ok u)
      | none => .panicked

/-- Embeds the polling sub-interval every Client wait primitive in
thirtyfour.rs passes to the query wait call: the timeout divided by 3
(durations measured in nanoseconds, Rust duration division truncates). -/
def pollInterval (timeout : Nat) : Nat := timeout / 3

/-- Modelled from the spec: the bounded sequential retry loop behind the
wait primitives (the poller itself lives in the external thirtyfour
library; the webdriver capability contract specifying it is repository
code not under src).  cond t is whether the awaited condition holds at
time t; the loop checks the condition, and if it fails waits one interval
and retries, for the given number of attempts, strictly sequentially. -/
def pollSucceeds (cond : Nat → Bool) (interval : Nat) : Nat → Nat → Bool
  | _, 0 => false
  | t, fuel + 1 => cond t || pollSucceeds cond interval (t + interval) fuel

/-- Modelled from the spec: a wait primitive polls at the fixed
sub-interval timeout over 3, starting at time zero, with four attempts
(the last poll time 3 times the interval never exceeds the timeout);
it returns ok when the loop observes the condition and a Timeout error
carrying the originating name when the deadline passes. -/
def wait_for (name : String) (cond : Nat → Bool) (timeout : Nat) :
    Except RunnerErrorKind Unit :=
  if pollSucceeds cond (pollInterval timeout) 0 4 then .ok ()
  else .error (.timeout name)

/-!  Script shim library, embedded from src/src/js_lib.rs.  The two js
fragment files are include_str resources not under src: they are opaque
text supplied as parameters, as is the Rust Debug formatting of the
answer string.  -/

/-- Embeds the format call in answer_on_next_prompt: the install fragment,
then the arm fragment, then the two invocations, the second applied to the
Debug-formatted answer. -/
def answer_on_next_prompt_code (install arm : String) (dbgFmt : String → String)
    (answer : String) : String :=
  install ++ arm ++ " replaceAlertMethod(null); answerOnNextPrompt(" ++
    dbgFmt answer ++ ");"

/-- Embeds js_lib answer_on_next_prompt: builds the code once and hands it
to the Runner exec helper once, propagating an execution error with the
question mark operator. -/
def answer_on_next_prompt (install arm : String) (dbgFmt : String → String)
    (r : Runner) (backendExec : String → Except RunnerErrorKind Json)
    (answer : String) : Except RunnerErrorKind Unit × Runner :=
  let code := answer_on_next_prompt_code install arm dbgFmt answer
  match r.exec backendExec code with
  | (.error e, r2) => (.error e, r2)
  | (.ok _, r2) => (.ok (), r2)

/-!  Helper lemmas about the variable store and the poll loop.  -/

/-- Looking up a name right after inserting it yields the inserted value. -/
lemma lookupVar_storeInsert_same (name : String) (v : Json) :
    ∀ s : List (String × Json), lookupVar name (storeInsert name v s) = some v := by
  intro s
  induction s with
  | nil => simp [storeInsert, lookupVar]
  | cons p rest ih =>
      obtain ⟨k, w⟩ := p
      by_cases h : k = name
      · simp [storeInsert, h, lookupVar]
      · simp [storeInsert, h, lookupVar, ih]

/-- Looking up any other name is unaffected by an insertion. -/
lemma lookupVar_storeInsert_other (name other : String) (v : Json)
    (hne : other ≠ name) :
    ∀ s : List (String × Json),
      lookupVar other (storeInsert name v s) = lookupVar other s := by
  intro s
  have hne2 : ¬name = other := fun h => hne h.symm
  induction s with
  | nil => simp [storeInsert, lookupVar, hne2]
  | cons p rest ih =>
      obtain ⟨k, w⟩ := p
      by_cases h : k = name
      · subst h
        simp [storeInsert, lookupVar, hne2]
      · simp [storeInsert, h, lookupVar, ih]

/-- The four-attempt poll loop started at time zero checks the condition
at times zero, i, i plus i, and i plus i plus i. -/
lemma pollSucceeds_four (cond : Nat → Bool) (i : Nat) :
    pollSucceeds cond i 0 4 =
      (cond 0 || (cond i || (cond (i + i) || cond (i + i + i)))) := by
  simp [pollSucceeds, Nat.zero_add]

/-- The four-attempt poll loop succeeds exactly when the condition holds
at one of the multiples k times i for k at most 3. -/
lemma pollSucceeds_four_iff (cond : Nat → Bool) (i : Nat) :
    pollSucceeds cond i 0 4 = true ↔ ∃ k, k ≤ 3 ∧ cond (k * i) = true := by
  rw [pollSucceeds_four]
  simp only [Bool.or_eq_true]
  constructor
  · rintro (h | h | h | h)
    · exact ⟨0, by omega, by simpa using h⟩
    · exact ⟨1, by omega, by simpa [one_mul] using h⟩
    · exact ⟨2, by omega, by simpa [two_mul] using h⟩
    · exact ⟨3, by omega, by simpa [show 3 * i = i + i + i by ring] using h⟩
  · rintro ⟨k, hk, hc⟩
    interval_cases k
    · exact Or.inl (by simpa using hc)
    · exact Or.inr (Or.inl (by simpa [one_mul] using hc))
    · exact Or.inr (Or.inr (Or.inl (by simpa [two_mul] using hc)))
    · exact Or.inr (Or.inr (Or.inr
        (by simpa [show 3 * i = i + i + i by ring] using hc)))

/-!  Claim theorems.  -/

/-- C1: the claim says WaitForElementVisible run returns the error Timeout
WaitForElementVisible when the awaited condition never becomes true.  The
source body is a sleep for the timeout followed by Ok: for every command
value and runner state the run returns success after sleeping the full
timeout, never any error — it does not even consult the backend, so the
awaited condition plays no role.  This evaluates the code at the failing
scenario (a page that never shows the element). -/
theorem waitForElementVisible_run_always_ok
    (cmd : WaitForElementVisible) (r : Runner) :
    (cmd.run r).1.1 = Except.ok () ∧ (cmd.run r).1.2 = r ∧
      (cmd.run r).2 = cmd.timeout :=
  ⟨rfl, rfl, rfl⟩

/-- C2: the claim says each wait-for-element command converts a backend
error into a Timeout carrying its own name.  In the source, the Editable
and NotEditable commands hard-code the string WaitForElementPresent in
their error mapping, so for every backend error all three commands
produce Timeout WaitForElementPresent — the Editable and NotEditable
commands never produce a Timeout carrying their own names. -/
theorem waitCommands_timeout_name_evaluation
    (c1 : WaitForElementEditable) (c2 : WaitForElementNotEditable)
    (c3 : WaitForElementPresent) (e : RunnerErrorKind) :
    c1.run (Except.error e)
        = Except.error (RunnerErrorKind.timeout "WaitForElementPresent")
    ∧ c2.run (Except.error e)
        = Except.error (RunnerErrorKind.timeout "WaitForElementPresent")
    ∧ c3.run (Except.error e)
        = Except.error (RunnerErrorKind.timeout "WaitForElementPresent") :=
  ⟨rfl, rfl, rfl⟩

/-- C3: AssertAlert run on an observed dialog text succeeds exactly when
the observed text equals the expected text (Lean string equality, which
on valid UTF-8 coincides with the byte equality Rust uses), and on any
mismatch returns AssertFailed with lhs the observed and rhs the expected
text. -/
theorem assertAlert_run_iff_byte_identical
    (observed expected : String) (r : Runner) :
    (AssertAlert.mk expected).run (Except.ok observed) r
      = (if observed = expected then (Except.ok (), r)
         else (Except.error (RunnerErrorKind.assertFailed observed expected), r))
    ∧ (((AssertAlert.mk expected).run (Except.ok observed) r).1 = Except.ok ()
        ↔ observed = expected) := by
  unfold AssertAlert.run
  by_cases h : observed = expected <;> simp [h]

/-- Witness for C3 at concrete texts: on a match the run succeeds, on a
mismatch it returns AssertFailed with the observed text on the left and
the expected text on the right. -/
theorem assertAlert_run_iff_byte_identical_witness :
    (AssertAlert.mk "hello").run (Except.ok "hello") (Runner.mk [] [])
      = (Except.ok (), Runner.mk [] [])
    ∧ (AssertAlert.mk "hello").run (Except.ok "Hello") (Runner.mk [] [])
      = (Except.error (RunnerErrorKind.assertFailed "Hello" "hello"),
          Runner.mk [] []) := by
  constructor
  · have h := (assertAlert_run_iff_byte_identical "hello" "hello" (Runner.mk [] [])).1
    rwa [if_pos rfl] at h
  · have h := (assertAlert_run_iff_byte_identical "Hello" "hello" (Runner.mk [] [])).1
    rwa [if_neg (by decide)] at h

/-- C4: when the backend execution of the script succeeds with value v and
the variable field is set, ExecuteAsync run succeeds and a subsequent get
of that name on the resulting runner returns exactly v — for every prior
store, including one that already binds the name (overwrite). -/
theorem executeAsync_binds_result
    (script name : String) (v : Json)
    (backendExec : String → Except RunnerErrorKind Json) (r : Runner)
    (h : backendExec script = Except.ok v) :
    ((ExecuteAsync.mk (some name) script).run backendExec r).1 = Except.ok ()
    ∧ (((ExecuteAsync.mk (some name) script).run backendExec r).2).get name
        = some v := by
  unfold ExecuteAsync.run Runner.exec_async
  simp [h, Runner.save_value, Runner.get, lookupVar_storeInsert_same]

/-- Witness for C4: a concrete successful asynchronous execution binds the
title value over a prior binding of the same name, and get returns it. -/
theorem executeAsync_binds_result_witness :
    (((ExecuteAsync.mk (some "title") "done(document.title)").run
        (fun _ => Except.ok (Json.str "Example"))
        (Runner.mk [("title", Json.null)] [])).2).get "title"
      = some (Json.str "Example") :=
  (executeAsync_binds_result "done(document.title)" "title" (Json.str "Example")
    (fun _ => Except.ok (Json.str "Example"))
    (Runner.mk [("title", Json.null)] []) rfl).2

/-- C5 counterexample: the claim says click yields the owning driver back
to the caller even when the underlying action fails.  At a concrete
element whose underlying click fails with a backend error, the run of
click returns the error alone — no driver value is produced. -/
theorem click_on_failure_yields_no_driver :
    ((TfWebElement.mk (TfDriver.mk 0)).click
        (Except.error (RunnerErrorKind.backendError "stale element"))).isOk
      = false := rfl

/-- C5 amended: click, select_by_index and select_by_value consume the
element in every case, but return the owning driver only on success of
every underlying stage; any failing stage propagates its backend error as
the sole outcome, without a driver value. -/
theorem element_actions_driver_on_success_only
    (e : TfWebElement) (err : RunnerErrorKind) (i : Nat) (v : String) :
    e.click (Except.ok ()) = Except.ok e.driver
    ∧ e.click (Except.error err) = Except.error err
    ∧ e.select_by_index i (Except.ok ()) (Except.ok ()) = Except.ok e.driver
    ∧ e.select_by_index i (Except.error err) (Except.ok ()) = Except.error err
    ∧ e.select_by_index i (Except.ok ()) (Except.error err) = Except.error err
    ∧ e.select_by_value v (Except.ok ()) (Except.ok ()) = Except.ok e.driver
    ∧ e.select_by_value v (Except.error err) (Except.ok ()) = Except.error err
    ∧ e.select_by_value v (Except.ok ()) (Except.error err) = Except.error err :=
  ⟨rfl, rfl, rfl, rfl, rfl, rfl, rfl, rfl⟩

/-- C6 counterexample: the claim says current_url fails with an error
result rather than crashing on an unparsable backend string.  At a
concrete unparsable string the embedded source (Url parse followed by
unwrap) panics: the outcome is the panicked marker, not an error
result. -/
theorem current_url_panics_on_unparsable :
    Client.current_url (fun _ => none) (Except.ok "not a parsable url")
      = PanicOr.panicked := rfl

/-- C6 amended: current_url returns the validated URL when the backend
string parses, returns the backend failure as an error result, but panics
(crashes) instead of returning an error result when the backend string
does not parse. -/
theorem current_url_amended
    (parseUrl : String → Option Url) (s : String) (u : Url)
    (e : RunnerErrorKind) :
    (parseUrl s = some u →
      Client.current_url parseUrl (Except.ok s) = PanicOr.ok (Except.ok u))
    ∧ (parseUrl s = none →
      Client.current_url parseUrl (Except.ok s) = PanicOr.panicked)
    ∧ Client.current_url parseUrl (Except.error e)
        = PanicOr.ok (Except.error e) :=
  ⟨fun h => by simp [Client.current_url, h],
   fun h => by simp [Client.current_url, h],
   rfl⟩

/-- Witness for C6 amended at concrete parsers and strings. -/
theorem current_url_amended_witness :
    Client.current_url (fun s => some (Url.mk s)) (Except.ok "https ok")
      = PanicOr.ok (Except.ok (Url.mk "https ok"))
    ∧ Client.current_url (fun _ => none) (Except.ok "broken")
      = PanicOr.panicked :=
  ⟨(current_url_amended (fun s => some (Url.mk s)) "https ok"
      (Url.mk "https ok") (RunnerErrorKind.backendError "x")).1 rfl,
   (current_url_amended (fun _ => none) "broken" (Url.mk "x")
      (RunnerErrorKind.backendError "x")).2.1 rfl⟩

/-- C7: the wait primitives poll with the sub-interval the adapter passes,
the timeout divided by 3 — hence never exceeding timeout over 3; the
bounded sequential loop checks the condition at the multiples of that
interval, all of which lie within the timeout; the wait succeeds exactly
when the condition holds at one of those poll times, and when the
condition never holds the deadline passes and the wait returns the
Timeout error carrying the originating name. -/
theorem wait_primitive_poll_discipline
    (name : String) (cond : Nat → Bool) (timeout : Nat) :
    pollInterval timeout ≤ timeout / 3
    ∧ (∀ k, k ≤ 3 → k * pollInterval timeout ≤ timeout)
    ∧ (wait_for name cond timeout = Except.ok ()
        ↔ ∃ k, k ≤ 3 ∧ cond (k * pollInterval timeout) = true)
    ∧ ((∀ t, cond t = false) →
        wait_for name cond timeout
          = Except.error (RunnerErrorKind.timeout name)) := by
  refine ⟨le_refl _, ?_, ?_, ?_⟩
  · intro k hk
    calc k * pollInterval timeout ≤ 3 * pollInterval timeout :=
          Nat.mul_le_mul_right _ hk
      _ ≤ timeout := by
          have h := Nat.div_mul_le_self timeout 3
          simpa [pollInterval, Nat.mul_comm] using h
  · rw [← pollSucceeds_four_iff cond (pollInterval timeout)]
    unfold wait_for
    by_cases hp : pollSucceeds cond (pollInterval timeout) 0 4 <;> simp [hp]
  · intro hnever
    simp [wait_for, pollSucceeds_four, hnever]

/-- Witness for C7: with a condition that never holds and timeout 9 the
wait returns the Timeout error, and the last poll time lies within the
timeout. -/
theorem wait_primitive_poll_discipline_witness :
    wait_for "WaitForElementVisible" (fun _ => false) 9
      = Except.error (RunnerErrorKind.timeout "WaitForElementVisible")
    ∧ 3 * pollInterval 9 ≤ 9 :=
  ⟨(wait_primitive_poll_discipline "WaitForElementVisible"
      (fun _ => false) 9).2.2.2 (fun _ => rfl),
   (wait_primitive_poll_discipline "WaitForElementVisible"
      (fun _ => false) 9).2.1 3 (by decide)⟩

/-- C8: answer_on_next_prompt hands exactly one script to the Runner exec
per call — the recorded execution trace grows by exactly that one script,
whatever the backend answers — the variable store is untouched, and the
script is the install fragment, then the arm fragment, then the fixed
invocation text applied to the formatted answer; the fragments appear
verbatim (the definition is parametric in them, so the core never
inspects their content). -/
theorem answer_on_next_prompt_single_exec
    (install arm : String) (dbgFmt : String → String) (r : Runner)
    (backendExec : String → Except RunnerErrorKind Json) (answer : String) :
    ((answer_on_next_prompt install arm dbgFmt r backendExec answer).2).execTrace
      = r.execTrace ++ [answer_on_next_prompt_code install arm dbgFmt answer]
    ∧ ((answer_on_next_prompt install arm dbgFmt r backendExec answer).2).data
      = r.data
    ∧ answer_on_next_prompt_code install arm dbgFmt answer
      = install ++ arm ++ " replaceAlertMethod(null); answerOnNextPrompt("
          ++ dbgFmt answer ++ ");" := by
  unfold answer_on_next_prompt Runner.exec
  cases hb : backendExec (answer_on_next_prompt_code install arm dbgFmt answer) <;>
    simp [hb] <;> rfl

/-- C9: ExecuteAsync run with no variable field leaves the variable store
completely unchanged whatever the backend answers, and with a variable
field set it leaves every binding of any other name unchanged. -/
theorem executeAsync_frame
    (cmd : ExecuteAsync) (backendExec : String → Except RunnerErrorKind Json)
    (r : Runner) :
    (cmd.varName = none → ((cmd.run backendExec r).2).data = r.data)
    ∧ (∀ name other, cmd.varName = some name → other ≠ name →
        ((cmd.run backendExec r).2).get other = r.get other) := by
  unfold ExecuteAsync.run Runner.exec_async
  cases hb : backendExec cmd.script with
  | error e =>
      exact ⟨fun _ => rfl, fun _ _ _ _ => rfl⟩
  | ok res =>
      constructor
      · intro hv
        simp [hv]
      · intro name other hv hne
        simp [hv, Runner.save_value, Runner.get,
          lookupVar_storeInsert_other name other res hne]

/-- Witness for C9: a concrete run with no variable field leaves a
one-binding store as it was, and a run binding y leaves the binding of x
unchanged. -/
theorem executeAsync_frame_witness :
    (((ExecuteAsync.mk none "s").run (fun _ => Except.ok Json.null)
        (Runner.mk [("x", Json.num 1)] [])).2).data = [("x", Json.num 1)]
    ∧ (((ExecuteAsync.mk (some "y") "s").run (fun _ => Except.ok Json.null)
        (Runner.mk [("x", Json.num 1)] [])).2).get "x" = some (Json.num 1) := by
  constructor
  · exact (executeAsync_frame (ExecuteAsync.mk none "s")
      (fun _ => Except.ok Json.null) (Runner.mk [("x", Json.num 1)] [])).1 rfl
  · have h := (executeAsync_frame (ExecuteAsync.mk (some "y") "s")
      (fun _ => Except.ok Json.null) (Runner.mk [("x", Json.num 1)] [])).2
      "y" "x" rfl (by decide)
    rw [h]
    rfl

/-- C10: AssertAlert run returns the runner exactly as it received it —
on success, on an assertion mismatch, and on a backend error alike — so
the variable store is never modified. -/
theorem assertAlert_run_preserves_runner
    (cmd : AssertAlert) (alertResult : Except RunnerErrorKind String)
    (r : Runner) :
    (cmd.run alertResult r).2 = r := by
  unfold AssertAlert.run
  cases alertResult with
  | error e => rfl
  | ok alert => by_cases h : alert = cmd.text <;> simp [h]

end Pantheon
